import Mathlib

/-!
Verification of the VEO3 video-generation Job Driver (`src/Veo_3.py`).

The driver submits a generation request to a remote long-running-operation
API, polls until the operation is done or a 300-second timeout elapses,
downloads the first generated video, and classifies any caught exception
message into a guidance category by case-insensitive substring matching.

Strings are modelled as `List Char`, byte strings as `List Nat`
(one entry per byte), the remote client as an explicit environment of
submit / poll / download oracles, and Python exceptions as `Except` values
that are caught at the single try/except boundary of
`generate_video_with_veo3`.
-/

namespace Veo3

/-- Python `needle == hay[:len(needle)]`: `needle` is a prefix of `hay`. -/
def startsWith {α : Type} [DecidableEq α] : List α → List α → Bool
  | [], _ => true
  | _ :: _, [] => false
  | a :: as, b :: bs => if a = b then startsWith as bs else false

/-- Python `needle in hay`: `needle` occurs as a contiguous substring of `hay`. -/
def containsSub {α : Type} [DecidableEq α] (needle : List α) : List α → Bool
  | [] => startsWith needle []
  | b :: bs => startsWith needle (b :: bs) || containsSub needle bs

/-- Python `s.lower()` restricted to basic latin letters, as `Char.toLower` is. -/
def lowerList (s : List Char) : List Char :=
  s.map Char.toLower

/-- The seven guidance categories produced by the except-handler chain of
`generate_video_with_veo3` (source lines 234-247). -/
inductive ErrorCategory where
  | QUOTA
  | AUTH
  | INVALID_INPUT
  | MODEL_UNAVAILABLE
  | TIMEOUT
  | SERVICE_UNAVAILABLE
  | GENERAL
  deriving DecidableEq, Repr

/-- The error-classification chain of `generate_video_with_veo3`
(source lines 234-247): each branch tests substrings of
`error_message.lower()`, except the `"503"` test which the source applies
to the raw `error_message`. -/
def classify_error (msg : List Char) : ErrorCategory :=
  if containsSub "quota".toList (lowerList msg) ||
      containsSub "exceeded".toList (lowerList msg) then
    .QUOTA
  else if containsSub "authentication".toList (lowerList msg) ||
      containsSub "unauthorized".toList (lowerList msg) then
    .AUTH
  else if containsSub "invalid_argument".toList (lowerList msg) then
    .INVALID_INPUT
  else if containsSub "model".toList (lowerList msg) &&
      containsSub "not found".toList (lowerList msg) then
    .MODEL_UNAVAILABLE
  else if containsSub "timeout".toList (lowerList msg) then
    .TIMEOUT
  else if containsSub "unavailable".toList (lowerList msg) ||
      containsSub "503".toList msg then
    .SERVICE_UNAVAILABLE
  else
    .GENERAL

/-- Trigger of the QUOTA branch: `"quota"` or `"exceeded"` in the lowered message. -/
def quotaTrigger (msg : List Char) : Bool :=
  containsSub "quota".toList (lowerList msg) || containsSub "exceeded".toList (lowerList msg)

/-- Trigger of the AUTH branch. -/
def authTrigger (msg : List Char) : Bool :=
  containsSub "authentication".toList (lowerList msg) ||
    containsSub "unauthorized".toList (lowerList msg)

/-- Trigger of the INVALID_INPUT branch. -/
def invalidTrigger (msg : List Char) : Bool :=
  containsSub "invalid_argument".toList (lowerList msg)

/-- Trigger of the MODEL_UNAVAILABLE branch: `"model"` and `"not found"` together. -/
def modelTrigger (msg : List Char) : Bool :=
  containsSub "model".toList (lowerList msg) && containsSub "not found".toList (lowerList msg)

/-- Trigger of the TIMEOUT branch. -/
def timeoutTrigger (msg : List Char) : Bool :=
  containsSub "timeout".toList (lowerList msg)

/-- Trigger of the SERVICE_UNAVAILABLE branch: `"unavailable"` in the lowered
message, or `"503"` in the raw message (as in the source). -/
def serviceTrigger (msg : List Char) : Bool :=
  containsSub "unavailable".toList (lowerList msg) || containsSub "503".toList msg

/-- MIME detection `get_mime_type` (source lines 138-147) over byte strings modelled as
`List Nat`: JPEG magic prefix, then PNG signature prefix, then
RIFF prefix with `WEBP` within the first 12 bytes, else the
`image/jpeg` fallback. -/
def get_mime_type (image_data : List Nat) : List Char :=
  if startsWith [0xff, 0xd8, 0xff] image_data then
    "image/jpeg".toList
  else if startsWith [0x89, 0x50, 0x4e, 0x47, 0x0d, 0x0a, 0x1a, 0x0a] image_data then
    "image/png".toList
  else if startsWith [0x52, 0x49, 0x46, 0x46] image_data &&
      containsSub [0x57, 0x45, 0x42, 0x50] (image_data.take 12) then
    "image/webp".toList
  else
    "image/jpeg".toList

/-- A generated video held by a done operation; `videoBytes` is the binary
content that `client.files.download` / `save` / `open`+`read` resolve to. -/
structure Video where
  videoBytes : List Nat
  deriving DecidableEq, Repr

/-- Response payload of a done operation: its `generated_videos` list. -/
structure OpResponse where
  generated_videos : List Video
  deriving DecidableEq, Repr

/-- A remote long-running operation as observed by the driver: its `done`
flag and, possibly, a `response` payload (`none` models Python `None`). -/
structure Operation where
  done : Bool
  response : Option OpResponse
  deriving DecidableEq, Repr

/-- The payload of a `client.models.generate_videos` call: the model id, the
prompt, and the optional image attachment (the bytes staged through the
temporary file in the image-bearing branch). -/
structure SubmitRequest where
  model : List Char
  prompt : List Char
  image : Option (List Nat)
  deriving DecidableEq, Repr

/-- The remote client, as an oracle environment.  Each field is one remote
call the driver makes; `Except` errors model Python exceptions carrying
their message.  `getOp k` is the result of the `(k+1)`-th
`client.operations.get` call. -/
structure Env where
  submit : SubmitRequest → Except (List Char) Operation
  getOp : Nat → Except (List Char) Operation
  download : Video → Except (List Char) (List Nat)

/-- The arguments of `generate_video_with_veo3` (source line 157); the
image bytes are optional, mirroring `image_data: Optional[bytes]`. -/
structure DriverArgs where
  image_data : Option (List Nat)
  prompt : List Char
  duration : Nat
  aspect : List Char
  quality : List Char
  text_only : Bool

/-- The model identifier both submission branches pass (source lines 175, 205). -/
def veoModel : List Char := "veo-3.0-generate-001".toList

/-- The wall-clock timeout of the polling loop, `timeout = 300` (source
lines 179, 210). -/
def timeoutSecs : Nat := 300

/-- The sleep between polls, `time.sleep(10)` (source lines 187, 218). -/
def pollIntervalSecs : Nat := 10

/-- The request `generate_video_with_veo3` submits: the text-only branch is
taken when `text_only` is true or `image_data is None` (source line 171) and
omits the image field; otherwise the staged image bytes are attached. -/
def submittedRequest (a : DriverArgs) : SubmitRequest :=
  match a.text_only, a.image_data with
  | true, _ => { model := veoModel, prompt := a.prompt, image := none }
  | false, none => { model := veoModel, prompt := a.prompt, image := none }
  | false, some bytes => { model := veoModel, prompt := a.prompt, image := some bytes }

/-- Result of the polling loop (source lines 181-188 and 212-219). -/
inductive LoopResult where
  | gotOp (op : Operation)
  | timedOut
  | pollError (msg : List Char)
  deriving DecidableEq, Repr

/-- The polling loop `while not operation.done` with virtual clock `t`
(elapsed seconds; each `time.sleep(10)` advances it by `pollIntervalSecs`)
and poll counter `k`.  Exceeding `timeoutSecs` returns `timedOut`;
a raising `client.operations.get` aborts the loop with its message. -/
def pollLoop (getOp : Nat → Except (List Char) Operation) (op : Operation)
    (t : Nat) (k : Nat) : LoopResult × Nat :=
  if op.done then
    (.gotOp op, k)
  else if t > timeoutSecs then
    (.timedOut, k)
  else
    match getOp k with
    | .error m => (.pollError m, k + 1)
    | .ok op2 => pollLoop getOp op2 (t + pollIntervalSecs) (k + 1)
termination_by timeoutSecs + pollIntervalSecs - t
decreasing_by simp [timeoutSecs, pollIntervalSecs] at *; omega

/-- Message of the Python `IndexError` raised by `generated_videos[0]` on an
empty list. -/
def indexErrorMsg : List Char := "list index out of range".toList

/-- Message of the Python `AttributeError` raised by
`operation.response.generated_videos` when `response` is `None`
(quote characters of the CPython message omitted). -/
def attributeErrorMsg : List Char :=
  "NoneType object has no attribute generated_videos".toList

/-- Extraction and download of the first generated video from a done
operation (source lines 190-195): `operation.response.generated_videos[0]`
raises on an absent response or an empty list; otherwise the video is
downloaded, saved, and read back as bytes. -/
def extractArtifact (download : Video → Except (List Char) (List Nat))
    (op : Operation) : Except (List Char) (List Nat) :=
  match op.response with
  | none => .error attributeErrorMsg
  | some resp =>
    match resp.generated_videos with
    | [] => .error indexErrorMsg
    | v :: _ => download v

/-- Continuation of the `try` body after the polling loop: the in-loop
timeout `return None`, a propagating poll exception, or extraction of the
artifact from the done operation. -/
def handleLoop (env : Env) : LoopResult × Nat → Except (List Char) (Option (List Nat)) × Nat
  | (.timedOut, k) => (.ok none, k)
  | (.pollError m, k) => (.error m, k)
  | (.gotOp op, k) =>
    match extractArtifact env.download op with
    | .error m => (.error m, k)
    | .ok bytes => (.ok (some bytes), k)

/-- Continuation of the `try` body after the submission call: a propagating
submission exception (with zero polls performed), or the polling loop
started at elapsed time 0. -/
def handleSubmit (env : Env) :
    Except (List Char) Operation → Except (List Char) (Option (List Nat)) × Nat
  | .error m => (.error m, 0)
  | .ok op0 => handleLoop env (pollLoop env.getOp op0 0 0)

/-- The body of the `try` block of `generate_video_with_veo3`: submit, poll,
extract.  The first component is the Python control flow — `.error m` is an
exception with message `m` propagating to the except-handler, `.ok none` is
the in-loop `return None` on timeout, `.ok (some bytes)` the successful
return.  The second component counts `client.operations.get` calls. -/
def tryBody (env : Env) (a : DriverArgs) :
    Except (List Char) (Option (List Nat)) × Nat :=
  handleSubmit env (env.submit (submittedRequest a))

/-- Observable outcome of one `generate_video_with_veo3` call:
a video artifact, the in-loop timeout failure, or an exception caught at
the job boundary (whose guidance is `classify_error` of its message). -/
inductive Outcome where
  | success (bytes : List Nat)
  | timedOutFailure
  | caught (msg : List Char)
  deriving DecidableEq, Repr

/-- The `Optional[bytes]` value the caller receives. -/
def Outcome.returnValue : Outcome → Option (List Nat)
  | .success bytes => some bytes
  | .timedOutFailure => none
  | .caught _ => none

/-- The guidance category displayed for a caught exception
(source lines 234-247); the other outcomes display none. -/
def Outcome.guidance : Outcome → Option ErrorCategory
  | .success _ => none
  | .timedOutFailure => none
  | .caught msg => some (classify_error msg)

/-- The single `except Exception` boundary of `generate_video_with_veo3`:
a propagating exception is converted into the caught-failure outcome whose
guidance is its classified message. -/
def boundary : Except (List Char) (Option (List Nat)) × Nat → Outcome × Nat
  | (.ok (some bytes), k) => (.success bytes, k)
  | (.ok none, k) => (.timedOutFailure, k)
  | (.error m, k) => (.caught m, k)

/-- Driver `generate_video_with_veo3` (source lines 157-248): the `try` body with
every exception caught at the single job boundary, paired with the number
of poll calls performed. -/
def generate_video_with_veo3 (env : Env) (a : DriverArgs) : Outcome × Nat :=
  boundary (tryBody env a)

/-- Modelled from the spec: the poll loops in `src/Veo_3.py` display only a
fixed waiting message and report no numeric progress; the spec describes the
reference progress report as a function of elapsed time over an expected
total duration of 180 seconds, capped at a soft ceiling of 0.95 while the
operation is not done, and 1.0 exactly on confirmed completion. -/
def reportedProgress (done : Bool) (elapsed : Nat) : ℚ :=
  if done then 1 else min ((elapsed : ℚ) / 180) (95 / 100)

/-- A not-yet-done operation, as a fake remote API reports it. -/
def opNotDone : Operation := { done := false, response := none }

/-- A done operation with an empty `generated_videos` list. -/
def opDoneEmpty : Operation := { done := true, response := some { generated_videos := [] } }

/-- A done operation whose `response` is `None`. -/
def opDoneNoResponse : Operation := { done := true, response := none }

/-- The 2,400,000-byte generated item of the end-to-end success scenario. -/
def scenarioVideo : Video := { videoBytes := List.replicate 2400000 0 }

/-- A done operation carrying exactly the one generated scenario item. -/
def opDoneVideo : Operation :=
  { done := true, response := some { generated_videos := [scenarioVideo] } }

/-- The end-to-end scenario request:
prompt "ocean sunset", no image, duration 8, 16:9. -/
def scenarioArgs : DriverArgs :=
  { image_data := none, prompt := "ocean sunset".toList, duration := 8,
    aspect := "16:9".toList, quality := "Standard".toList, text_only := true }

/-- The end-to-end scenario fake API: submission yields a pending operation,
polls report done=False twice and then done=True with one 2,400,000-byte
item, download resolves a video to its bytes. -/
def scenarioEnv : Env :=
  { submit := fun _ => .ok opNotDone,
    getOp := fun k => if k < 2 then .ok opNotDone else .ok opDoneVideo,
    download := fun v => .ok v.videoBytes }

/-- A fake API whose operation never becomes done. -/
def envNeverDone : Env :=
  { submit := fun _ => .ok opNotDone,
    getOp := fun _ => .ok opNotDone,
    download := fun v => .ok v.videoBytes }

/-- The billing-precondition submission error message of the spec scenario. -/
def billingMsg : List Char := "FAILED_PRECONDITION, billing".toList

/-- An unrelated submission error message matching no classification branch. -/
def otherFailureMsg : List Char := "some strange failure".toList

/-- A fake API whose submission raises the billing-precondition error. -/
def envBilling : Env :=
  { submit := fun _ => .error billingMsg,
    getOp := fun _ => .ok opNotDone,
    download := fun v => .ok v.videoBytes }

/-- A fake API whose submission raises an unrelated error. -/
def envOtherFailure : Env :=
  { submit := fun _ => .error otherFailureMsg,
    getOp := fun _ => .ok opNotDone,
    download := fun v => .ok v.videoBytes }

/-- A fake API that reports a done operation with an empty result list. -/
def envDoneEmpty : Env :=
  { submit := fun _ => .ok opDoneEmpty,
    getOp := fun _ => .ok opDoneEmpty,
    download := fun v => .ok v.videoBytes }

/-- Driver arguments with an image attached but text-only mode selected. -/
def textOnlyWithImageArgs : DriverArgs :=
  { image_data := some [1, 2, 3], prompt := "a prompt".toList, duration := 4,
    aspect := "16:9".toList, quality := "Standard".toList, text_only := true }

/-- Driver arguments in image mode but with no image bytes supplied. -/
def imageModeNoImageArgs : DriverArgs :=
  { image_data := none, prompt := "a prompt".toList, duration := 4,
    aspect := "16:9".toList, quality := "Standard".toList, text_only := false }

theorem char_toNat_ofNat (n : Nat) (h : n.isValidChar) : (Char.ofNat n).toNat = n := by
  rw [Char.ofNat, dif_pos h]
  rfl

theorem char_toNat_inj {a b : Char} (h : a.toNat = b.toNat) : a = b := by
  have h2 := congrArg Char.ofNat h
  rwa [Char.ofNat_toNat, Char.ofNat_toNat] at h2

theorem toLower_toNat (c : Char) :
    (Char.toLower c).toNat =
      if c.toNat ≥ 65 ∧ c.toNat ≤ 90 then c.toNat + 32 else c.toNat := by
  simp only [Char.toLower]
  split_ifs with h
  · exact char_toNat_ofNat _ (Or.inl (by omega))
  · rfl

theorem toLower_idem (c : Char) :
    Char.toLower (Char.toLower c) = Char.toLower c := by
  apply char_toNat_inj
  have h1 := toLower_toNat c
  have h2 := toLower_toNat (Char.toLower c)
  rw [h2, h1]
  split_ifs <;> omega

theorem toLower_eq_iff_of_lt65 {c d : Char} (hd : d.toNat < 65) :
    Char.toLower c = d ↔ c = d := by
  constructor
  · intro h
    have h1 := toLower_toNat c
    rw [h] at h1
    split_ifs at h1 with hc
    · exact absurd h1 (by omega)
    · exact char_toNat_inj h1.symm
  · intro h
    subst h
    have h1 := toLower_toNat c
    rw [if_neg (by omega)] at h1
    exact char_toNat_inj h1

theorem lowerList_cons (c : Char) (cs : List Char) :
    lowerList (c :: cs) = Char.toLower c :: lowerList cs := rfl

theorem lowerList_idem (m : List Char) : lowerList (lowerList m) = lowerList m := by
  induction m with
  | nil => rfl
  | cons c cs ih => rw [lowerList_cons, lowerList_cons, toLower_idem, ih]

theorem listPrefix_lowerList (needle : List Char) :
    ∀ hay : List Char, (∀ c ∈ needle, c.toNat < 65) →
      startsWith needle (lowerList hay) = startsWith needle hay := by
  induction needle with
  | nil => intro hay _; rfl
  | cons a as ih =>
    intro hay hn
    cases hay with
    | nil => rfl
    | cons b bs =>
      rw [lowerList_cons]
      simp only [startsWith]
      have hab : (a = Char.toLower b) ↔ (a = b) := by
        constructor
        · intro h
          exact ((toLower_eq_iff_of_lt65 (hn a (List.mem_cons_self a as))).mp h.symm).symm
        · intro h
          exact ((toLower_eq_iff_of_lt65 (hn a (List.mem_cons_self a as))).mpr h.symm).symm
      by_cases hcase : a = b
      · rw [if_pos (hab.mpr hcase), if_pos hcase]
        exact ih bs (fun c hc => hn c (List.mem_cons_of_mem _ hc))
      · rw [if_neg (fun hh => hcase (hab.mp hh)), if_neg hcase]

theorem containsSub_lowerList (needle : List Char) (hn : ∀ c ∈ needle, c.toNat < 65) :
    ∀ hay : List Char, containsSub needle (lowerList hay) = containsSub needle hay := by
  intro hay
  induction hay with
  | nil => rfl
  | cons b bs ih =>
    rw [lowerList_cons]
    simp only [containsSub]
    rw [← lowerList_cons, listPrefix_lowerList needle _ hn, ih]

theorem classify_error_lowerList (m : List Char) :
    classify_error (lowerList m) = classify_error m := by
  unfold classify_error
  rw [lowerList_idem, containsSub_lowerList "503".toList (by decide) m]

/-- Claim C1: the function `classify_error` is a pure, case-insensitive substring match
with first-match-wins priority in exactly the documented order
(quota/exceeded, authentication/unauthorized, invalid_argument,
model-and-not-found, timeout, unavailable/503, else GENERAL): each category
is returned exactly when its trigger fires and no earlier trigger does, and
the classification of a message equals that of its lowercase form. -/
theorem classify_error_priority (m : List Char) :
    (classify_error m = .QUOTA ↔ quotaTrigger m = true)
    ∧ (classify_error m = .AUTH ↔
        (quotaTrigger m = false ∧ authTrigger m = true))
    ∧ (classify_error m = .INVALID_INPUT ↔
        (quotaTrigger m = false ∧ authTrigger m = false ∧ invalidTrigger m = true))
    ∧ (classify_error m = .MODEL_UNAVAILABLE ↔
        (quotaTrigger m = false ∧ authTrigger m = false ∧ invalidTrigger m = false ∧
          modelTrigger m = true))
    ∧ (classify_error m = .TIMEOUT ↔
        (quotaTrigger m = false ∧ authTrigger m = false ∧ invalidTrigger m = false ∧
          modelTrigger m = false ∧ timeoutTrigger m = true))
    ∧ (classify_error m = .SERVICE_UNAVAILABLE ↔
        (quotaTrigger m = false ∧ authTrigger m = false ∧ invalidTrigger m = false ∧
          modelTrigger m = false ∧ timeoutTrigger m = false ∧ serviceTrigger m = true))
    ∧ (classify_error m = .GENERAL ↔
        (quotaTrigger m = false ∧ authTrigger m = false ∧ invalidTrigger m = false ∧
          modelTrigger m = false ∧ timeoutTrigger m = false ∧ serviceTrigger m = false))
    ∧ classify_error (lowerList m) = classify_error m := by
  refine ⟨?_, ?_, ?_, ?_, ?_, ?_, ?_, classify_error_lowerList m⟩ <;>
    · simp only [classify_error, quotaTrigger, authTrigger, invalidTrigger,
        modelTrigger, timeoutTrigger, serviceTrigger]
      split_ifs <;> simp_all <;> intros <;> simp_all

theorem listPrefix_head {α : Type} [DecidableEq α] {a b : α} {as bs : List α}
    (h : startsWith (a :: as) (b :: bs) = true) : a = b := by
  by_contra hab
  simp [startsWith, if_neg hab] at h

theorem listPrefix_ne_heads {a b : Nat} {as bs l : List Nat} (hab : b ≠ a)
    (h : startsWith (a :: as) l = true) : startsWith (b :: bs) l = false := by
  cases l with
  | nil => simp [startsWith] at h
  | cons c cs =>
    have hac := listPrefix_head h
    subst hac
    simp [startsWith, if_neg hab]

/-- Claim C10: the function `get_mime_type` is total over byte strings and returns
exactly one of `image/jpeg`, `image/png`, `image/webp`: `image/jpeg` for a
JPEG magic prefix, `image/png` for a PNG signature prefix, `image/webp`
for a RIFF prefix with `WEBP` in the first 12 bytes, and the fallback
`image/jpeg` otherwise, including on the empty byte string. -/
theorem get_mime_type_total_cases (bs : List Nat) :
    (startsWith [0xff, 0xd8, 0xff] bs = true →
      get_mime_type bs = "image/jpeg".toList)
    ∧ (startsWith [0x89, 0x50, 0x4e, 0x47, 0x0d, 0x0a, 0x1a, 0x0a] bs = true →
      get_mime_type bs = "image/png".toList)
    ∧ ((startsWith [0x52, 0x49, 0x46, 0x46] bs &&
        containsSub [0x57, 0x45, 0x42, 0x50] (bs.take 12)) = true →
      get_mime_type bs = "image/webp".toList)
    ∧ (startsWith [0x89, 0x50, 0x4e, 0x47, 0x0d, 0x0a, 0x1a, 0x0a] bs = false →
      (startsWith [0x52, 0x49, 0x46, 0x46] bs &&
        containsSub [0x57, 0x45, 0x42, 0x50] (bs.take 12)) = false →
      get_mime_type bs = "image/jpeg".toList)
    ∧ (get_mime_type bs = "image/jpeg".toList ∨ get_mime_type bs = "image/png".toList ∨
        get_mime_type bs = "image/webp".toList)
    ∧ get_mime_type ([] : List Nat) = "image/jpeg".toList := by
  refine ⟨?_, ?_, ?_, ?_, ?_, by decide⟩
  · intro h
    unfold get_mime_type
    rw [if_pos h]
  · intro h
    have hj : startsWith [0xff, 0xd8, 0xff] bs = false :=
      listPrefix_ne_heads (by decide) h
    unfold get_mime_type
    rw [if_neg (by simp [hj]), if_pos h]
  · intro h
    have hr : startsWith [0x52, 0x49, 0x46, 0x46] bs = true := (Bool.and_eq_true _ _ |>.mp h).1
    have hj : startsWith [0xff, 0xd8, 0xff] bs = false :=
      listPrefix_ne_heads (by decide) hr
    have hp : startsWith [0x89, 0x50, 0x4e, 0x47, 0x0d, 0x0a, 0x1a, 0x0a] bs = false :=
      listPrefix_ne_heads (by decide) hr
    unfold get_mime_type
    rw [if_neg (by simp [hj]), if_neg (by simp [hp]), if_pos h]
  · intro hp hw
    unfold get_mime_type
    by_cases hj : startsWith [0xff, 0xd8, 0xff] bs = true
    · rw [if_pos hj]
    · rw [if_neg hj, if_neg (by simp [hp]), if_neg (by simp [hw])]
  · unfold get_mime_type
    split_ifs <;> simp

theorem pollLoop_done_now (getOp : Nat → Except (List Char) Operation)
    (op : Operation) (t k : Nat) (h : op.done = true) :
    pollLoop getOp op t k = (.gotOp op, k) := by
  rw [pollLoop.eq_def]
  simp [h]

theorem pollLoop_step (getOp : Nat → Except (List Char) Operation)
    (op : Operation) (t k : Nat) (hd : op.done = false)
    (ht : ¬ t > timeoutSecs) (op2 : Operation) (hg : getOp k = .ok op2) :
    pollLoop getOp op t k = pollLoop getOp op2 (t + pollIntervalSecs) (k + 1) := by
  rw [pollLoop.eq_def]
  simp only [hd, ht, hg]
  rfl

theorem pollLoop_never_done (getOp : Nat → Except (List Char) Operation)
    (hok : ∀ j, ∃ op2, getOp j = .ok op2 ∧ op2.done = false) :
    ∀ n t k op, op.done = false → t + 10 * n = 310 →
      pollLoop getOp op t k = (.timedOut, k + n) := by
  intro n
  induction n with
  | zero =>
    intro t k op hdone ht
    have h310 : t = 310 := by omega
    subst h310
    rw [pollLoop.eq_def]
    simp [hdone, timeoutSecs]
  | succ n ih =>
    intro t k op hdone ht
    obtain ⟨op2, hop2, hop2d⟩ := hok k
    have hle : ¬ t > timeoutSecs := by simp [timeoutSecs]; omega
    rw [pollLoop_step getOp op t k hdone hle op2 hop2]
    have hrec := ih (t + pollIntervalSecs) (k + 1) op2 hop2d
      (by simp [pollIntervalSecs]; omega)
    rw [hrec]
    have : k + 1 + n = k + (n + 1) := by omega
    rw [this]

theorem pollLoop_gotOp_done (getOp : Nat → Except (List Char) Operation) :
    ∀ n t k op op2 k2, 310 - t ≤ n →
      pollLoop getOp op t k = (.gotOp op2, k2) → op2.done = true := by
  intro n
  induction n with
  | zero =>
    intro t k op op2 k2 hn h
    rw [pollLoop.eq_def] at h
    by_cases hd : op.done
    · simp only [hd, if_pos] at h
      obtain ⟨h1, _⟩ := Prod.mk.injEq .. ▸ h
      injection h with h1 h2
      injection h1 with h1
      rw [← h1]; exact hd
    · simp only [Bool.not_eq_true] at hd
      have hgt : t > timeoutSecs := by simp [timeoutSecs]; omega
      simp [hd, hgt] at h
  | succ n ih =>
    intro t k op op2 k2 hn h
    rw [pollLoop.eq_def] at h
    by_cases hd : op.done
    · simp only [hd, if_pos] at h
      injection h with h1 h2
      injection h1 with h1
      rw [← h1]; exact hd
    · simp only [Bool.not_eq_true] at hd
      by_cases hgt : t > timeoutSecs
      · simp [hd, hgt] at h
      · simp only [hd, hgt] at h
        cases hg : getOp k with
        | error m => rw [hg] at h; simp at h
        | ok opn =>
          rw [hg] at h
          simp only [] at h
          exact ih (t + pollIntervalSecs) (k + 1) opn op2 k2
            (by simp [timeoutSecs] at hgt; simp [pollIntervalSecs]; omega) h

/-- Claim C2: every exception raised during submission, polling, or
download is caught at the single job boundary: whenever the try body
propagates an exception message, `generate_video_with_veo3` returns the
caught outcome — `None` to the caller together with the classified
diagnostic — and no exception crosses into the UI shell. -/
theorem driver_catches_all_exceptions (env : Env) (a : DriverArgs)
    (m : List Char) (k : Nat) (h : tryBody env a = (.error m, k)) :
    generate_video_with_veo3 env a = (.caught m, k)
    ∧ Outcome.returnValue (.caught m) = none
    ∧ Outcome.guidance (.caught m) = some (classify_error m) := by
  refine ⟨?_, rfl, rfl⟩
  unfold generate_video_with_veo3
  rw [h]
  rfl

theorem driver_catches_all_exceptions_witness :
    generate_video_with_veo3 envOtherFailure scenarioArgs = (.caught otherFailureMsg, 0)
    ∧ Outcome.returnValue (.caught otherFailureMsg) = none
    ∧ Outcome.guidance (.caught otherFailureMsg) = some (classify_error otherFailureMsg) :=
  driver_catches_all_exceptions envOtherFailure scenarioArgs otherFailureMsg 0 rfl

/-- Claim C3: against an operation that never reports done, the polling
loop re-fetches at the fixed 10-second interval against the hardcoded
300-second timeout and the driver returns the timeout failure (None to the
caller) after exactly 31 polls — the polls at elapsed times 0,10,...,300 —
performing none afterwards. -/
theorem driver_timeout_after_31_polls (env : Env) (a : DriverArgs) (op0 : Operation)
    (hsub : env.submit (submittedRequest a) = .ok op0) (h0 : op0.done = false)
    (hok : ∀ j, ∃ op2, env.getOp j = .ok op2 ∧ op2.done = false) :
    generate_video_with_veo3 env a = (.timedOutFailure, 31)
    ∧ Outcome.returnValue .timedOutFailure = none := by
  have hp := pollLoop_never_done env.getOp hok 31 0 0 op0 h0 (by norm_num)
  refine ⟨?_, rfl⟩
  unfold generate_video_with_veo3 tryBody
  rw [hsub]
  simp only [handleSubmit]
  rw [hp]
  rfl

theorem driver_timeout_after_31_polls_witness :
    generate_video_with_veo3 envNeverDone scenarioArgs = (.timedOutFailure, 31)
    ∧ Outcome.returnValue .timedOutFailure = none :=
  driver_timeout_after_31_polls envNeverDone scenarioArgs opNotDone rfl rfl
    (fun _ => ⟨opNotDone, rfl, rfl⟩)

theorem tryBody_gotOp (env : Env) (a : DriverArgs) (op0 op : Operation) (k : Nat)
    (hsub : env.submit (submittedRequest a) = .ok op0)
    (hloop : pollLoop env.getOp op0 0 0 = (.gotOp op, k)) :
    generate_video_with_veo3 env a =
      boundary (match extractArtifact env.download op with
        | .error m => (.error m, k)
        | .ok bytes => (.ok (some bytes), k)) := by
  unfold generate_video_with_veo3 tryBody
  rw [hsub]
  simp only [handleSubmit]
  rw [hloop]
  rfl

/-- Claim C4: when the polling loop ends on a done operation, an absent
response or an empty generated-videos list yields a caught failure — the
caller receives None, never a VideoArtifact — while on success the artifact
is the downloaded bytes of exactly the first element of the list. -/
theorem await_empty_is_failure_success_is_first (env : Env) (a : DriverArgs)
    (op0 op : Operation) (k : Nat)
    (hsub : env.submit (submittedRequest a) = .ok op0)
    (hloop : pollLoop env.getOp op0 0 0 = (.gotOp op, k)) :
    op.done = true
    ∧ (op.response = none →
        generate_video_with_veo3 env a = (.caught attributeErrorMsg, k))
    ∧ (∀ r, op.response = some r → r.generated_videos = [] →
        generate_video_with_veo3 env a = (.caught indexErrorMsg, k))
    ∧ (∀ r v vs b, op.response = some r → r.generated_videos = v :: vs →
        env.download v = .ok b →
        generate_video_with_veo3 env a = (.success b, k))
    ∧ Outcome.returnValue (.caught indexErrorMsg) = none
    ∧ Outcome.returnValue (.caught attributeErrorMsg) = none := by
  have hgen := tryBody_gotOp env a op0 op k hsub hloop
  refine ⟨pollLoop_gotOp_done env.getOp 310 0 0 op0 op k (by omega) hloop,
    ?_, ?_, ?_, rfl, rfl⟩
  · intro hresp
    rw [hgen]
    simp only [extractArtifact, hresp]
    rfl
  · intro r hresp hnil
    rw [hgen]
    simp only [extractArtifact, hresp, hnil]
    rfl
  · intro r v vs b hresp hcons hdl
    rw [hgen]
    simp only [extractArtifact, hresp, hcons, hdl]
    rfl

theorem await_empty_is_failure_witness :
    generate_video_with_veo3 envDoneEmpty scenarioArgs = (.caught indexErrorMsg, 0) :=
  (await_empty_is_failure_success_is_first envDoneEmpty scenarioArgs opDoneEmpty opDoneEmpty 0
      rfl (pollLoop_done_now envDoneEmpty.getOp opDoneEmpty 0 0 rfl)).2.2.1
    { generated_videos := [] } rfl rfl

/-- Claim C5: in text-only mode the submitted payload carries no image
data, whatever (possibly non-null) image bytes the request holds. -/
theorem text_only_payload_has_no_image (a : DriverArgs) (h : a.text_only = true) :
    (submittedRequest a).image = none
    ∧ submittedRequest a = { model := veoModel, prompt := a.prompt, image := none } := by
  have h2 : submittedRequest a =
      { model := veoModel, prompt := a.prompt, image := none } := by
    simp [submittedRequest, h]
  exact ⟨by rw [h2], h2⟩

theorem text_only_payload_has_no_image_witness :
    (submittedRequest textOnlyWithImageArgs).image = none
    ∧ submittedRequest textOnlyWithImageArgs =
        { model := veoModel, prompt := textOnlyWithImageArgs.prompt, image := none } :=
  text_only_payload_has_no_image textOnlyWithImageArgs rfl

/-- Claim C6 counterexample: a submission failure carrying the
"FAILED_PRECONDITION, billing" message is caught with zero polls but is
classified GENERAL — exactly the guidance an unrelated, unrecognized
submission error receives — so the driver returns no distinct
billing-required failure. -/
theorem billing_not_distinguished_counterexample :
    generate_video_with_veo3 envBilling scenarioArgs = (.caught billingMsg, 0)
    ∧ Outcome.guidance (.caught billingMsg) = some ErrorCategory.GENERAL
    ∧ generate_video_with_veo3 envOtherFailure scenarioArgs = (.caught otherFailureMsg, 0)
    ∧ Outcome.guidance (.caught otherFailureMsg) = some ErrorCategory.GENERAL := by
  refine ⟨rfl, ?_, rfl, ?_⟩ <;> decide

/-- Claim C6 amended: a submission failure with the billing-precondition
message is caught at the job boundary with no poll attempted and the caller
receives None — but its guidance is the GENERAL category, the same as any
other unrecognized submission error; the code defines no distinct
SUBMIT_BILLING_REQUIRED category. -/
theorem billing_submit_caught_general (env : Env) (a : DriverArgs)
    (hsub : env.submit (submittedRequest a) = .error billingMsg) :
    generate_video_with_veo3 env a = (.caught billingMsg, 0)
    ∧ Outcome.returnValue (.caught billingMsg) = none
    ∧ Outcome.guidance (.caught billingMsg) = some ErrorCategory.GENERAL := by
  refine ⟨?_, rfl, by decide⟩
  unfold generate_video_with_veo3 tryBody
  rw [hsub]
  rfl

theorem billing_submit_caught_general_witness :
    generate_video_with_veo3 envBilling scenarioArgs = (.caught billingMsg, 0)
    ∧ Outcome.returnValue (.caught billingMsg) = none
    ∧ Outcome.guidance (.caught billingMsg) = some ErrorCategory.GENERAL :=
  billing_submit_caught_general envBilling scenarioArgs rfl

/-- Claim C7: for the scenario request (prompt "ocean sunset", no image,
duration 8, 16:9) against a fake API reporting done=False twice and then
done=True with one 2,400,000-byte generated item, the driver returns a
VideoArtifact of exactly 2,400,000 bytes after exactly 3 poll calls. -/
theorem scenario_three_polls_artifact :
    generate_video_with_veo3 scenarioEnv scenarioArgs = (.success scenarioVideo.videoBytes, 3)
    ∧ scenarioVideo.videoBytes.length = 2400000 := by
  constructor
  · have h1 := pollLoop_step scenarioEnv.getOp opNotDone 0 0 rfl (by decide) opNotDone rfl
    have h2 := pollLoop_step scenarioEnv.getOp opNotDone (0 + pollIntervalSecs) (0 + 1)
      rfl (by decide) opNotDone rfl
    have h3 := pollLoop_step scenarioEnv.getOp opNotDone
      (0 + pollIntervalSecs + pollIntervalSecs) (0 + 1 + 1) rfl (by decide) opDoneVideo rfl
    have h4 := pollLoop_done_now scenarioEnv.getOp opDoneVideo
      (0 + pollIntervalSecs + pollIntervalSecs + pollIntervalSecs) (0 + 1 + 1 + 1) rfl
    unfold generate_video_with_veo3 tryBody
    rw [show scenarioEnv.submit (submittedRequest scenarioArgs) = .ok opNotDone from rfl]
    simp only [handleSubmit]
    rw [h1, h2, h3, h4]
    rfl
  · exact List.length_replicate 2400000 0

theorem reportedProgress_false_eq (t : Nat) :
    reportedProgress false t = min ((t : ℚ) / 180) (95 / 100) := by
  simp [reportedProgress]

/-- Claim C8 (spec-modelled, the source reports no numeric progress): the
reported progress is monotonically non-decreasing in elapsed time, stays
between 0 and the 0.95 soft ceiling — hence strictly below 1 — while the
operation is not done, and equals 1 exactly on confirmed completion. -/
theorem progress_monotone_bounded (t1 t2 : Nat) (h : t1 ≤ t2) :
    reportedProgress false t1 ≤ reportedProgress false t2
    ∧ 0 ≤ reportedProgress false t1
    ∧ reportedProgress false t1 ≤ 95 / 100
    ∧ reportedProgress false t1 < 1
    ∧ reportedProgress true t2 = 1 := by
  have hb : reportedProgress false t1 ≤ 95 / 100 := by
    rw [reportedProgress_false_eq]
    exact min_le_right _ _
  refine ⟨?_, ?_, hb, lt_of_le_of_lt hb (by norm_num), by simp [reportedProgress]⟩
  · rw [reportedProgress_false_eq, reportedProgress_false_eq]
    have hc : ((t1 : ℚ)) ≤ (t2 : ℚ) := by exact_mod_cast h
    exact min_le_min (by gcongr) le_rfl
  · rw [reportedProgress_false_eq]
    apply le_min
    · positivity
    · norm_num

theorem progress_monotone_bounded_witness :
    reportedProgress false 10 ≤ reportedProgress false 20
    ∧ 0 ≤ reportedProgress false 10
    ∧ reportedProgress false 10 ≤ 95 / 100
    ∧ reportedProgress false 10 < 1
    ∧ reportedProgress true 20 = 1 :=
  progress_monotone_bounded 10 20 (by norm_num)

/-- Claim C9: with text_only false but image_data absent, the driver takes
the text-only submission path — it submits the very request text-only mode
would submit, with no image attached, rather than failing or attempting an
image-bearing submission. -/
theorem no_image_takes_text_only_path (a : DriverArgs)
    (ht : a.text_only = false) (hi : a.image_data = none) :
    submittedRequest a = { model := veoModel, prompt := a.prompt, image := none }
    ∧ submittedRequest a = submittedRequest { a with text_only := true } := by
  have h1 : submittedRequest a =
      { model := veoModel, prompt := a.prompt, image := none } := by
    simp [submittedRequest, ht, hi]
  have h2 : submittedRequest { a with text_only := true } =
      { model := veoModel, prompt := a.prompt, image := none } := by
    simp [submittedRequest]
  exact ⟨h1, h1.trans h2.symm⟩

theorem no_image_takes_text_only_path_witness :
    submittedRequest imageModeNoImageArgs =
      { model := veoModel, prompt := imageModeNoImageArgs.prompt, image := none }
    ∧ submittedRequest imageModeNoImageArgs =
        submittedRequest { imageModeNoImageArgs with text_only := true } :=
  no_image_takes_text_only_path imageModeNoImageArgs rfl rfl

theorem get_mime_type_total_cases_witness :
    get_mime_type [0x89, 0x50, 0x4e, 0x47, 0x0d, 0x0a, 0x1a, 0x0a, 0x00] =
      "image/png".toList :=
  (get_mime_type_total_cases [0x89, 0x50, 0x4e, 0x47, 0x0d, 0x0a, 0x1a, 0x0a, 0x00]).2.1
    (by decide)

end Veo3
